import Mathlib

/-!
Shallow embedding of the HTTP request/retry/error-mapping core of the
stateset-python SDK, together with theorems settling the spec claims.

Embedded source files:
* `src/stateset/client.py` — `RetryConfig`, `_AsyncRequestor` (the retry loop,
  backoff computation, Retry-After handling, response deserialization, header
  merge) and `Stateset.__init__`.
* `src/stateset/errors.py` — the lightweight error hierarchy and
  `raise_for_status_code`.
* `src/errors.py` — the enhanced error hierarchy and its
  `raise_for_status_code` (used by `src/client.py`).
* `src/client.py` — `RetryConfig.calculate_delay`, `AuthenticatedClient.__init__`,
  `Stateset.__init__`.

Modelling conventions: machine floats are modelled as exact rationals (all the
constants involved — 0.5, 1.5, 10.0, powers of two — are exactly representable
in binary floating point, so the rational model agrees with the float
computations the claims exercise); bytes/str response bodies are `String`s
together with the outcome of `json.loads` on them, represented explicitly by
`ParsedBody`; the external `httpx` transport is abstracted as a function from
the index of the network call to its outcome; `asyncio.sleep` is recorded as a
list of requested delays; raising an exception is modelled by returning the
error value.
-/

namespace StatesetSpec

/-- `RetryConfig` from `src/stateset/client.py`: frozen dataclass with
`max_attempts`, `backoff_factor` and `retryable_statuses`. -/
structure RetryConfig where
  maxAttempts : Nat := 3
  backoffFactor : ℚ := 1/2
  retryableStatuses : List Nat := [408, 409, 425, 429, 500, 502, 503, 504]
deriving DecidableEq

/-- The default `RetryConfig()` (max_attempts=3, backoff_factor=0.5). -/
def defaultRetryConfig : RetryConfig := {}

/-! ## Backoff computation -/

/-- `math.pow(2, e)` for an integer exponent `e`, as an exact rational.
`_compute_backoff` calls it with `attempts - 1`, which is `-1` when
`attempts = 0`. -/
def pow2Z : Int → ℚ
  | Int.ofNat n => 2 ^ n
  | Int.negSucc n => 1 / 2 ^ (n + 1)

/-- `_AsyncRequestor._compute_backoff` (src/stateset/client.py lines 153-155):
`min(backoff_factor * math.pow(2, attempts - 1), 10.0)`. -/
def computeBackoff (cfg : RetryConfig) (attempts : Nat) : ℚ :=
  min (cfg.backoffFactor * pow2Z ((attempts : Int) - 1)) 10

/-- `RetryConfig.calculate_delay` (src/client.py lines 32-34):
`backoff_factor * (2 ** attempt)` — note: no cap. -/
def calculateDelay (backoffFactor : ℚ) (attempt : Nat) : ℚ :=
  backoffFactor * 2 ^ attempt

/-! ## Parsing `Retry-After` (`float(retry_after)`)

Python's `float()` on a plain decimal literal `[digits][.digits]`; the model
covers exactly the shapes the pipeline's callers exercise ("1.5", "later", "").
Strings that are not of this plain decimal shape are rejected, as `float()`
rejects the concrete non-numeric header values in question. -/

/-- Value of a list of decimal digit characters. -/
def digitsToNat (ds : List Char) : Nat :=
  ds.foldl (fun acc c => acc * 10 + (c.toNat - 48)) 0

/-- Parse an unsigned decimal literal `intpart[.fracpart]` (at least one digit
overall), as `float()` accepts. -/
def parseDecimal (cs : List Char) : Option ℚ :=
  let intPart := cs.takeWhile (·.isDigit)
  let rest := cs.dropWhile (·.isDigit)
  match rest with
  | [] => if intPart.isEmpty then none else some (digitsToNat intPart : ℚ)
  | '.' :: frac =>
    if frac.all (·.isDigit) && (!intPart.isEmpty || !frac.isEmpty) then
      some ((digitsToNat intPart : ℚ) + (digitsToNat frac : ℚ) / 10 ^ frac.length)
    else none
  | _ => none

/-- `float(s)` with an optional sign; `none` models `ValueError`. -/
def parseFloat (s : String) : Option ℚ :=
  match s.toList with
  | '-' :: rest => (parseDecimal rest).map (fun q => -q)
  | '+' :: rest => parseDecimal rest
  | rest => parseDecimal rest

/-! ## Substring containment (`"application/json" in content_type`) -/

/-- `needle in haystack` on Python strings: substring containment. -/
def containsSub (needle haystack : String) : Bool :=
  haystack.toList.tails.any (fun t => needle.toList.isPrefixOf t)

/-! ## Error taxonomy

`src/stateset/errors.py` and `src/errors.py` each define an exception
hierarchy; an error value is modelled by the class that was constructed
(`ErrKind`), the stored `type` string, the message, and the stored
`status_code`. -/

/-- The exception class of a raised error, covering both hierarchies
(`validation`, `timeout`, `maintenance` exist only in `src/errors.py`;
`base` is a plain `StatesetError` carrying an unrecognized type string). -/
inductive ErrKind where
  | base
  | invalidRequest
  | apiError
  | authentication
  | permission
  | notFound
  | connection
  | rateLimit
  | validation
  | timeout
  | maintenance
deriving DecidableEq

/-- A constructed error: class, stored `type` string, message, `status_code`. -/
structure ErrorInfo where
  kind : ErrKind
  type : String
  message : String
  statusCode : Option Nat
deriving DecidableEq

/-- Outcome of `json.loads` on a response body, as consumed by
`StatesetError.from_response`: decode failure, a non-dict JSON value (on which
`data.get` raises `AttributeError`), or a dict with its `type`/`message`
fields. Other fields (`code`, `detail`, `path`) do not influence which class
is raised nor its `status_code`, and are not tracked. -/
inductive ParsedBody where
  | invalid (decoded : String)
  | nonDict
  | dict (typeField : Option String) (messageField : Option String)
deriving DecidableEq

/-- The `data.get("type", "api_error")` result (decode failures substitute a
dict with `type` `"api_error"`); meaningless for `nonDict`, where
`from_response` raises before reading it. -/
def derivedType : ParsedBody → String
  | .invalid _ => "api_error"
  | .nonDict => "api_error"
  | .dict t? _ => t?.getD "api_error"

/-- The `data.get("message", default)` result; decode failures substitute the
decoded text. -/
def derivedMessage (default : String) : ParsedBody → String
  | .invalid s => s
  | .nonDict => default
  | .dict _ m? => m?.getD default

/-- `ERROR_TYPE_MAPPING` of `src/stateset/errors.py` (lines 139-147), as the
class selected for a type string; unmapped strings select the base class. -/
def kindOfType (t : String) : ErrKind :=
  if t = "invalid_request_error" then .invalidRequest
  else if t = "api_error" then .apiError
  else if t = "authentication_error" then .authentication
  else if t = "permission_error" then .permission
  else if t = "not_found_error" then .notFound
  else if t = "connection_error" then .connection
  else if t = "rate_limit_error" then .rateLimit
  else .base

/-- `http.HTTPStatus(code).phrase` for the status codes this development
evaluates concretely; `none` models the `ValueError` on codes outside the
enum (codes outside this table are never compared on their message by any
theorem below). -/
def httpStatusPhrase (code : Nat) : Option String :=
  if code = 400 then some "Bad Request"
  else if code = 401 then some "Unauthorized"
  else if code = 403 then some "Forbidden"
  else if code = 404 then some "Not Found"
  else if code = 408 then some "Request Timeout"
  else if code = 409 then some "Conflict"
  else if code = 425 then some "Too Early"
  else if code = 429 then some "Too Many Requests"
  else if code = 500 then some "Internal Server Error"
  else if code = 502 then some "Bad Gateway"
  else if code = 503 then some "Service Unavailable"
  else if code = 504 then some "Gateway Timeout"
  else none

/-- Status description in `src/stateset/errors.py`: starts as `"HTTP error"`,
replaced by the phrase when `HTTPStatus(status_code)` succeeds. -/
def statusPhrase (code : Nat) : String :=
  (httpStatusPhrase code).getD "HTTP error"

/-- `StatesetError.from_response` (src/stateset/errors.py lines 46-77):
select the class by the body's `type` field; `.error` models the
`AttributeError` escaping when the JSON value is not a dict. The constructed
error stores the derived type string, the derived message (default
`"Unknown error"`), and the given `status_code`. -/
def fromResponse (body : ParsedBody) (statusCode : Option Nat) :
    Except Unit ErrorInfo :=
  match body with
  | .nonDict => .error ()
  | _ =>
    let t := derivedType body
    .ok { kind := kindOfType t
          type := t
          message := derivedMessage "Unknown error" body
          statusCode := statusCode }

/-- `raise_for_status_code` (src/stateset/errors.py lines 150-174). `none`
models returning without raising; `some e` models raising `e`. Note the
order of the early returns: an expected code returns first, then ANY 2xx
status returns without raising — even one excluded from `expected_codes`. -/
def raiseForStatusCode (statusCode : Nat) (content : ParsedBody)
    (expectedCodes : Option (List Nat)) : Option ErrorInfo :=
  if (match expectedCodes with
      | some l => !l.isEmpty && decide (statusCode ∈ l)
      | none => false) then
    none
  else if 200 ≤ statusCode ∧ statusCode < 300 then
    none
  else
    some (match fromResponse content (some statusCode) with
      | .ok e => e
      | .error _ =>
        { kind := .apiError
          type := "api_error"
          message := "HTTP " ++ toString statusCode ++ " " ++ statusPhrase statusCode
          statusCode := some statusCode })

/-! ## The enhanced error mapping (src/errors.py) -/

/-- An HTTP response as consumed by the pipeline. -/
structure Response where
  status : Nat
  retryAfter : Option String
  contentType : String
  body : String
  parsed : ParsedBody
deriving DecidableEq

/-- Outcome of one network call. -/
inductive CallResult where
  | netError
  | response (r : Response)
deriving DecidableEq

/-- The deserialized body returned on success: `None`, the parsed JSON of the
raw body (`response.json()`), or the raw text (`response.text`). -/
inductive Deserialized where
  | nullValue
  | jsonValue (raw : String)
  | textValue (raw : String)
deriving DecidableEq

/-- Return value of `request`: the deserialized body, or the raised error. -/
inductive RequestResult where
  | success (v : Deserialized)
  | failure (e : ErrorInfo)
deriving DecidableEq

/-- `set(expected) if expected else set(range(200, 300))`
(src/stateset/client.py line 81): an absent or EMPTY `expected` sequence
falls back to the 2xx range — the check is on truthiness. -/
def expectedStatuses : Option (List Nat) → List Nat
  | some l => if l.isEmpty then List.range' 200 100 else l.dedup
  | none => List.range' 200 100

/-- `_AsyncRequestor._deserialize_response` (src/stateset/client.py lines
157-164): `None` for an empty body, parsed JSON when the `Content-Type`
contains `"application/json"`, otherwise the body text. -/
def deserializeResponse (r : Response) : Deserialized :=
  if r.body = "" then .nullValue
  else if containsSub "application/json" r.contentType then .jsonValue r.body
  else .textValue r.body

/-- `_AsyncRequestor._sleep_for_retry` (src/stateset/client.py lines
141-151): for a 429, a present, non-empty `Retry-After` header that parses
as a float gives the delay; otherwise exponential backoff. `attempts` is the
counter value at the call site — `request` passes it BEFORE incrementing. -/
def sleepForRetry (cfg : RetryConfig) (r : Response) (attempts : Nat) : ℚ :=
  if r.status = 429 then
    match r.retryAfter with
    | some s =>
      if !s.isEmpty then
        match parseFloat s with
        | some d => d
        | none => computeBackoff cfg attempts
      else computeBackoff cfg attempts
    | none => computeBackoff cfg attempts
  else computeBackoff cfg attempts

/-- `_AsyncRequestor._should_retry` (src/stateset/client.py lines 135-139). -/
def shouldRetry (cfg : RetryConfig) (statusCode attempts : Nat) : Bool :=
  decide (attempts < cfg.maxAttempts) && decide (statusCode ∈ cfg.retryableStatuses)

/-- The error raised by `_handle_network_error` (src/stateset/client.py lines
123-133) once attempts are exhausted: `StatesetConnectionError`. -/
def connectionError : ErrorInfo :=
  { kind := .connection
    type := "connection_error"
    message := "Failed to reach the Stateset API"
    statusCode := none }

/-- Result of one run of the `while True` loop of `request`: how many network
calls were made, the `asyncio.sleep` delays requested in order, and the
returned value or raised error. -/
structure RunOutcome where
  calls : Nat
  sleeps : List ℚ
  result : RequestResult
deriving DecidableEq

/-- The `while True` loop of `_AsyncRequestor.request` (src/stateset/client.py
lines 85-121), indexed by fuel: `none` models non-termination within the
given number of iterations. State: `attempts` (the local counter), `calls`
and `sleeps` (accumulated observable effects).

Per iteration, mirroring the source:
* a network-level exception increments `attempts`; `_handle_network_error`
  raises `connectionError` when `attempts >= max_attempts`, else sleeps
  `_compute_backoff(attempts)` (post-increment value) and retries;
* a status in `expected_statuses` returns `None` for 204, else the
  deserialized body;
* `_should_retry` sleeps `_sleep_for_retry(response, attempts)`
  (pre-increment value), increments `attempts`, retries;
* otherwise `raise_for_status_code(status, content, expected_statuses or
  None)` — and when that returns without raising (any 2xx status outside an
  explicit `expected` set) the loop falls through and re-issues the call. -/
def requestLoop (cfg : RetryConfig) (exp : List Nat)
    (responder : Nat → CallResult) :
    Nat → Nat → Nat → List ℚ → Option RunOutcome
  | 0, _, _, _ => none
  | fuel + 1, attempts, calls, sleeps =>
    match responder calls with
    | .netError =>
      if attempts + 1 ≥ cfg.maxAttempts then
        some ⟨calls + 1, sleeps, .failure connectionError⟩
      else
        requestLoop cfg exp responder fuel (attempts + 1) (calls + 1)
          (sleeps ++ [computeBackoff cfg (attempts + 1)])
    | .response r =>
      if r.status ∈ exp then
        some ⟨calls + 1, sleeps,
          .success (if r.status = 204 then .nullValue else deserializeResponse r)⟩
      else if shouldRetry cfg r.status attempts then
        requestLoop cfg exp responder fuel (attempts + 1) (calls + 1)
          (sleeps ++ [sleepForRetry cfg r attempts])
      else
        match raiseForStatusCode r.status r.parsed (some exp) with
        | some e => some ⟨calls + 1, sleeps, .failure e⟩
        | none => requestLoop cfg exp responder fuel attempts (calls + 1) sleeps

/-- One call to `_AsyncRequestor.request` with the given `expected` argument,
run against `responder` with the given iteration bound. -/
def runRequest (cfg : RetryConfig) (expected : Option (List Nat))
    (responder : Nat → CallResult) (fuel : Nat) : Option RunOutcome :=
  requestLoop cfg (expectedStatuses expected) responder fuel 0 0 []

/-! ## Header merging

Python `dict`s are modelled as association lists with the keys in insertion
order; `base[k] = v` / `base.update(...)` replace the value of an existing
key in place (string keys compare case-sensitively, exactly as in `dict`)
and append unknown keys. -/

/-- `base[k] = v` on a dict: replace in place or append. -/
def updateOne (base : List (String × String)) (kv : String × String) :
    List (String × String) :=
  if base.any (fun p => p.1 = kv.1) then
    base.map (fun p => if p.1 = kv.1 then (p.1, kv.2) else p)
  else base ++ [kv]

/-- `base.update(upd)` on dicts. -/
def dictUpdate (base upd : List (String × String)) : List (String × String) :=
  upd.foldl updateOne base

/-- `d.get(k)`-style lookup. -/
def lookupHeader (hs : List (String × String)) (k : String) : Option String :=
  (hs.find? (fun p => p.1 = k)).map (fun p => p.2)

/-- `httpx.Headers` normalizes header names to lowercase for its dict-like
view; lowercasing of a header name, written over the char list so that it
evaluates (Python header names are ASCII). -/
def lowerHeaderKey (s : String) : String :=
  String.mk (s.toList.map Char.toLower)

/-- `dict(self._client.headers)` (src/stateset/client.py line 62): the
headers given to the `httpx` client come back with LOWERCASED keys, one
entry per key. `httpx` also contributes its own default entries
(accept-encoding, connection, its user-agent fallback); they are further
lowercase-keyed defaults of exactly the same shape whose values depend on
the installed httpx build, never interact with the SDK-set headers below,
and are not tracked. Keys that collide only after lowercasing are not
exercised by anything below; `dict` construction keeps one entry per key. -/
def httpxStoredHeaders (hs : List (String × String)) : List (String × String) :=
  dictUpdate [] (hs.map (fun p => (lowerHeaderKey p.1, p.2)))

/-- `self._default_headers` as stored by `_AsyncRequestor.__init__`
(src/stateset/client.py lines 43-49 and 62): the dict with Authorization,
User-Agent, Accept, updated with any additional per-client headers, after
the round-trip through `httpx.Headers` — so its keys are lowercase. -/
def defaultHeaders (apiKey version : String)
    (additional : Option (List (String × String))) : List (String × String) :=
  httpxStoredHeaders
    (dictUpdate
      [("Authorization", "Bearer " ++ apiKey),
       ("User-Agent", "stateset-python/" ++ version),
       ("Accept", "application/json")]
      (additional.getD []))

/-- `_AsyncRequestor._merge_headers` (src/stateset/client.py lines 166-173):
a copy of the stored default headers updated with the per-call headers (a
falsy argument leaves the defaults unchanged). -/
def mergeHeaders (defaults : List (String × String))
    (headers : Option (List (String × String))) : List (String × String) :=
  match headers with
  | none => defaults
  | some hs => dictUpdate defaults hs

/-! ## Client construction (src/client.py) -/

/-- A 200 response with a JSON body, as in the repository's own tests. -/
def okResponse : Response :=
  { status := 200, retryAfter := none, contentType := "application/json"
    body := "ok-body", parsed := .dict none none }

/-- A 503 response with an empty body. -/
def resp503 : Response :=
  { status := 503, retryAfter := none, contentType := "", body := ""
    parsed := .dict none none }

/-- A 429 response whose `Retry-After` header is `1.5`. -/
def resp429RetryAfter : Response :=
  { status := 429, retryAfter := some "1.5", contentType := "", body := ""
    parsed := .dict none none }

/-- A 429 response whose `Retry-After` header is the unparsable `later`. -/
def resp429Unparsable : Response :=
  { status := 429, retryAfter := some "later", contentType := "", body := ""
    parsed := .dict none none }

/-- A 409 conflict response with a JSON body. -/
def resp409Conflict : Response :=
  { status := 409, retryAfter := none, contentType := "application/json"
    body := "conflict-body", parsed := .dict none none }

/-- A responder answering `r` on the first call and 200 afterwards. -/
def firstThenOk (r : Response) : Nat → CallResult :=
  fun n => if n = 0 then .response r else .response okResponse

/-! # Helper lemmas -/

theorem mem_expectedStatuses_none (s : Nat) :
    s ∈ expectedStatuses none ↔ 200 ≤ s ∧ s < 300 := by
  simp [expectedStatuses, List.mem_range'_1]

theorem pow2Z_natCast (n : Nat) : pow2Z (n : Int) = 2 ^ n := rfl

theorem requestLoop_success_step (cfg : RetryConfig) (exp : List Nat)
    (responder : Nat → CallResult) (fuel attempts calls : Nat) (sleeps : List ℚ)
    (r : Response) (hresp : responder calls = .response r) (hmem : r.status ∈ exp) :
    requestLoop cfg exp responder (fuel + 1) attempts calls sleeps =
      some ⟨calls + 1, sleeps,
        .success (if r.status = 204 then .nullValue else deserializeResponse r)⟩ := by
  rw [requestLoop, hresp]
  simp [hmem]

theorem requestLoop_netError_exhausts (cfg : RetryConfig) (exp : List Nat)
    (responder : Nat → CallResult) (hresp : ∀ n, responder n = .netError) :
    ∀ fuel attempts calls sleeps, attempts < cfg.maxAttempts →
      cfg.maxAttempts ≤ fuel + attempts →
      ∃ s, requestLoop cfg exp responder fuel attempts calls sleeps =
        some ⟨calls + (cfg.maxAttempts - attempts), s, .failure connectionError⟩ := by
  intro fuel
  induction fuel with
  | zero => intro attempts calls sleeps h1 h2; omega
  | succ fuel ih =>
    intro attempts calls sleeps h1 h2
    rw [requestLoop, hresp]
    by_cases hge : attempts + 1 ≥ cfg.maxAttempts
    · rw [if_pos hge]
      have harith : cfg.maxAttempts - attempts = 1 := by omega
      exact ⟨sleeps, by rw [harith]⟩
    · rw [if_neg hge]
      obtain ⟨s, hs⟩ := ih (attempts + 1) (calls + 1)
        (sleeps ++ [computeBackoff cfg (attempts + 1)]) (by omega) (by omega)
      have harith : calls + 1 + (cfg.maxAttempts - (attempts + 1)) =
          calls + (cfg.maxAttempts - attempts) := by omega
      exact ⟨s, by rw [hs, harith]⟩

theorem requestLoop_retryable_exhausts (cfg : RetryConfig) (exp : List Nat)
    (r : Response) (e : ErrorInfo) (responder : Nat → CallResult)
    (hresp : ∀ n, responder n = .response r)
    (hmem : r.status ∉ exp) (hret : r.status ∈ cfg.retryableStatuses)
    (hraise : raiseForStatusCode r.status r.parsed (some exp) = some e) :
    ∀ fuel attempts calls sleeps, attempts ≤ cfg.maxAttempts →
      cfg.maxAttempts - attempts + 1 ≤ fuel →
      ∃ s, requestLoop cfg exp responder fuel attempts calls sleeps =
        some ⟨calls + (cfg.maxAttempts - attempts) + 1, s, .failure e⟩ := by
  intro fuel
  induction fuel with
  | zero => intro attempts calls sleeps h1 h2; omega
  | succ fuel ih =>
    intro attempts calls sleeps h1 h2
    rw [requestLoop, hresp]
    simp only [if_neg hmem]
    by_cases hlt : attempts < cfg.maxAttempts
    · have hretry : shouldRetry cfg r.status attempts = true := by
        simp [shouldRetry, hlt, hret]
      rw [if_pos hretry]
      obtain ⟨s, hs⟩ := ih (attempts + 1) (calls + 1)
        (sleeps ++ [sleepForRetry cfg r attempts]) (by omega) (by omega)
      have harith : calls + 1 + (cfg.maxAttempts - (attempts + 1)) + 1 =
          calls + (cfg.maxAttempts - attempts) + 1 := by omega
      exact ⟨s, by rw [hs, harith]⟩
    · have hretry : shouldRetry cfg r.status attempts = false := by
        simp [shouldRetry, hlt]
      rw [if_neg (by simp [hretry])]
      rw [hraise]
      have harith : cfg.maxAttempts - attempts = 0 := by omega
      exact ⟨sleeps, by rw [harith]⟩

theorem raiseForStatusCode_raises (statusCode : Nat) (content : ParsedBody)
    (exp : List Nat) (hmem : statusCode ∉ exp)
    (hs : ¬(200 ≤ statusCode ∧ statusCode < 300)) :
    ∃ e, raiseForStatusCode statusCode content (some exp) = some e := by
  rw [raiseForStatusCode, if_neg (by simp [hmem]), if_neg hs]
  exact ⟨_, rfl⟩

theorem requestLoop_unexpected_2xx_diverges :
    ∀ fuel attempts calls sleeps,
      requestLoop defaultRetryConfig [409] (fun _ => .response okResponse) fuel
        attempts calls sleeps = none := by
  intro fuel
  induction fuel with
  | zero => intros; rfl
  | succ fuel ih =>
    intro attempts calls sleeps
    rw [requestLoop]
    have h1 : okResponse.status ∉ [409] := by decide
    have h2 : shouldRetry defaultRetryConfig okResponse.status attempts = false := by
      simp [shouldRetry, okResponse, defaultRetryConfig]
    have h3 : raiseForStatusCode okResponse.status okResponse.parsed (some [409]) = none := by
      decide
    simp only [if_neg h1, if_neg (by simp [h2] : ¬shouldRetry defaultRetryConfig
      okResponse.status attempts = true), h3]
    exact ih attempts (calls + 1) sleeps

/-! # Claim theorems -/

/-- Claim C1 (code_bug evaluation at the failing input): with
`expected=[409]` and a transport that always answers HTTP 200, the request
loop never terminates, for any iteration bound — `raise_for_status_code`
returns without raising for a 2xx status outside the expected set, and the
loop re-issues the call forever instead of raising exactly one error as the
claim requires. -/
theorem c1_request_diverges_on_unexpected_2xx :
    ∀ fuel, runRequest defaultRetryConfig (some [409])
      (fun _ => .response okResponse) fuel = none := by
  intro fuel
  have h : expectedStatuses (some [409]) = [409] := by decide
  rw [runRequest, h]
  exact requestLoop_unexpected_2xx_diverges fuel 0 0 []

theorem computeBackoff_attempt_zero (cfg : RetryConfig) :
    computeBackoff cfg 0 = min (cfg.backoffFactor * (1/2)) 10 := by
  have h : ((0 : Nat) : Int) - 1 = Int.negSucc 0 := by decide
  unfold computeBackoff
  rw [h]
  norm_num [pow2Z]

theorem computeBackoff_default_zero : computeBackoff defaultRetryConfig 0 = 1/4 := by
  rw [computeBackoff_attempt_zero]
  norm_num [defaultRetryConfig, min_def]

/-- Claim C2, counterexample: with `max_attempts = 1` and a transport that
always answers a retryable 503, the pipeline issues 2 network calls — more
than `max_attempts` — before raising, refuting "at most n network calls" on
the retryable-status path. -/
theorem c2_counterexample :
    runRequest { maxAttempts := 1 } none (fun _ => .response resp503) 10 =
      some ⟨2, [computeBackoff { maxAttempts := 1 } 0],
        .failure { kind := .apiError, type := "api_error"
                   message := "Unknown error", statusCode := some 503 }⟩
    ∧ computeBackoff { maxAttempts := 1 } 0 = 1/4
    ∧ ¬(2 ≤ 1) := by
  refine ⟨rfl, ?_, by decide⟩
  rw [computeBackoff_attempt_zero]
  norm_num [min_def]

/-- Claim C2 as amended: with `max_attempts = n ≥ 1`, the pipeline issues
exactly `n` network calls before raising when every attempt fails with a
network-level exception, but exactly `n + 1` network calls when every
attempt returns a retryable non-2xx status (on that path the attempt counter
is compared before being incremented). -/
theorem c2_attempt_counts_amended (cfg : RetryConfig) (r : Response) (fuel : Nat)
    (hmax : 1 ≤ cfg.maxAttempts) (hfuel : cfg.maxAttempts + 1 ≤ fuel)
    (hret : r.status ∈ cfg.retryableStatuses)
    (hs : ¬(200 ≤ r.status ∧ r.status < 300)) :
    (∃ s, runRequest cfg none (fun _ => .netError) fuel =
      some ⟨cfg.maxAttempts, s, .failure connectionError⟩)
    ∧ (∃ s e, runRequest cfg none (fun _ => .response r) fuel =
      some ⟨cfg.maxAttempts + 1, s, .failure e⟩) := by
  have hmem : r.status ∉ expectedStatuses none := by
    rw [mem_expectedStatuses_none]; exact hs
  constructor
  · obtain ⟨s, hrun⟩ := requestLoop_netError_exhausts cfg (expectedStatuses none)
      (fun _ => .netError) (fun _ => rfl) fuel 0 0 [] (by omega) (by omega)
    exact ⟨s, by rw [runRequest, hrun]; simp⟩
  · obtain ⟨e, he⟩ := raiseForStatusCode_raises r.status r.parsed
      (expectedStatuses none) hmem hs
    obtain ⟨s, hrun⟩ := requestLoop_retryable_exhausts cfg (expectedStatuses none)
      r e (fun _ => .response r) (fun _ => rfl) hmem hret he fuel 0 0 []
      (by omega) (by omega)
    exact ⟨s, e, by rw [runRequest, hrun]; simp⟩

/-- Witness for `c2_attempt_counts_amended` at the default config
(`max_attempts = 3`), an all-503 transport, fuel 10. -/
theorem c2_attempt_counts_amended_witness :
    (∃ s, runRequest defaultRetryConfig none (fun _ => .netError) 10 =
      some ⟨defaultRetryConfig.maxAttempts, s, .failure connectionError⟩)
    ∧ (∃ s e, runRequest defaultRetryConfig none (fun _ => .response resp503) 10 =
      some ⟨defaultRetryConfig.maxAttempts + 1, s, .failure e⟩) :=
  c2_attempt_counts_amended defaultRetryConfig resp503 10
    (by decide) (by decide) (by decide) (by decide)

/-- Claim C3, counterexample: a retryable 429 whose `Retry-After` header is
the unparsable `later`, retried once and then succeeding, sleeps 0.25
seconds — not the 0.5 seconds (`0.5 * 2^0`) the claim computes for the
first retry with the default factor (the code passes the pre-increment
attempt counter 0, giving `0.5 * 2^(-1)`; the repository's own test
`test_rate_limit_retry_after_fallback_backoff` asserts the 0.25). -/
theorem c3_counterexample :
    runRequest defaultRetryConfig none (firstThenOk resp429Unparsable) 10 =
      some ⟨2, [computeBackoff defaultRetryConfig 0], .success (.jsonValue "ok-body")⟩
    ∧ computeBackoff defaultRetryConfig 0 = 1/4
    ∧ (1/4 : ℚ) ≠ 1/2 := by
  exact ⟨rfl, computeBackoff_default_zero, by norm_num⟩

/-- Claim C3 as amended: on a retryable 429 that will be retried, a present
`Retry-After` header parsing as a float is slept exactly; an absent or
unparsable header falls back to `_compute_backoff(attempts)` with the
PRE-increment attempt counter, so the first retry sleeps
`backoff_factor * 2^(-1)` (0.25 with the default factor 0.5); every other
retryable status always sleeps the backoff value. The two run-level
conjuncts replay the repository's tests: `Retry-After: 1.5` sleeps exactly
1.5, and `Retry-After: later` sleeps 0.25. -/
theorem c3_retry_sleep_amended (cfg : RetryConfig) (r : Response)
    (attempts : Nat) (s : String) (d : ℚ) (h429 : r.status = 429) :
    (r.retryAfter = some s → parseFloat s = some d →
      sleepForRetry cfg r attempts = d)
    ∧ (r.retryAfter = none →
      sleepForRetry cfg r attempts = computeBackoff cfg attempts)
    ∧ (r.retryAfter = some s → parseFloat s = none →
      sleepForRetry cfg r attempts = computeBackoff cfg attempts)
    ∧ (∀ r' : Response, r'.status ≠ 429 →
      sleepForRetry cfg r' attempts = computeBackoff cfg attempts)
    ∧ computeBackoff defaultRetryConfig 0 = 1/4
    ∧ runRequest defaultRetryConfig none (firstThenOk resp429RetryAfter) 10 =
        some ⟨2, [sleepForRetry defaultRetryConfig resp429RetryAfter 0],
          .success (.jsonValue "ok-body")⟩
    ∧ sleepForRetry defaultRetryConfig resp429RetryAfter 0 = 3/2
    ∧ runRequest defaultRetryConfig none (firstThenOk resp429Unparsable) 10 =
        some ⟨2, [computeBackoff defaultRetryConfig 0],
          .success (.jsonValue "ok-body")⟩ := by
  have hp : parseFloat "1.5" = some (3/2) := by
    have h2 : digitsToNat ['1'] = 1 := by decide
    have h3 : digitsToNat ['5'] = 5 := by decide
    have hval : parseFloat "1.5" =
        some ((digitsToNat ['1'] : ℚ) + (digitsToNat ['5'] : ℚ) / 10 ^ (1 : Nat)) :=
      rfl
    rw [hval, h2, h3]
    norm_num
  refine ⟨?_, ?_, ?_, ?_, computeBackoff_default_zero, rfl, ?_, rfl⟩
  · intro hra hparse
    have hne : s.isEmpty = false := by
      cases hemp : s.isEmpty
      · rfl
      · rw [(String.isEmpty_iff s).mp hemp] at hparse
        simp [parseFloat, parseDecimal] at hparse
    unfold sleepForRetry
    rw [if_pos h429, hra]
    simp [hne, hparse]
  · intro hra
    unfold sleepForRetry
    rw [if_pos h429, hra]
  · intro hra hparse
    unfold sleepForRetry
    rw [if_pos h429, hra]
    cases hemp : s.isEmpty <;> simp [hemp, hparse]
  · intro r' h
    unfold sleepForRetry
    rw [if_neg h]
  · have hie : "1.5".isEmpty = false := by decide
    unfold sleepForRetry
    simp [resp429RetryAfter, hie, hp]

/-- Witness for `c3_retry_sleep_amended` at a 429 response carrying
`Retry-After: 1.5`. -/
theorem c3_retry_sleep_amended_witness :
    (resp429RetryAfter.retryAfter = some "1.5" → parseFloat "1.5" = some (3/2) →
      sleepForRetry defaultRetryConfig resp429RetryAfter 0 = 3/2)
    ∧ (resp429RetryAfter.retryAfter = none →
      sleepForRetry defaultRetryConfig resp429RetryAfter 0 =
        computeBackoff defaultRetryConfig 0)
    ∧ (resp429RetryAfter.retryAfter = some "1.5" → parseFloat "1.5" = none →
      sleepForRetry defaultRetryConfig resp429RetryAfter 0 =
        computeBackoff defaultRetryConfig 0)
    ∧ (∀ r' : Response, r'.status ≠ 429 →
      sleepForRetry defaultRetryConfig r' 0 = computeBackoff defaultRetryConfig 0)
    ∧ computeBackoff defaultRetryConfig 0 = 1/4
    ∧ runRequest defaultRetryConfig none (firstThenOk resp429RetryAfter) 10 =
        some ⟨2, [sleepForRetry defaultRetryConfig resp429RetryAfter 0],
          .success (.jsonValue "ok-body")⟩
    ∧ sleepForRetry defaultRetryConfig resp429RetryAfter 0 = 3/2
    ∧ runRequest defaultRetryConfig none (firstThenOk resp429Unparsable) 10 =
        some ⟨2, [computeBackoff defaultRetryConfig 0],
          .success (.jsonValue "ok-body")⟩ :=
  c3_retry_sleep_amended defaultRetryConfig resp429RetryAfter 0 "1.5" (3/2)
    (by decide)

/-- Claim C4, counterexample: `RetryConfig.calculate_delay` in
`src/client.py` — one of the two backoff computations the claim covers — has
no 10-second cap: with `backoff_factor = 20` the delay for the first failed
attempt (1-indexed `a = 1`, passed as the 0-indexed loop counter 0) is 20
seconds, not `min(20 * 2^0, 10) = 10`. -/
theorem c4_counterexample :
    calculateDelay 20 0 = 20
    ∧ min ((20 : ℚ) * 2 ^ (0 : Nat)) 10 = 10
    ∧ (10 : ℚ) < calculateDelay 20 0 := by
  refine ⟨by norm_num [calculateDelay], by norm_num [min_def],
    by norm_num [calculateDelay]⟩

/-- Claim C4 as amended: `_compute_backoff` in `src/stateset/client.py`
satisfies the claimed formula — for every 1-indexed failed attempt `a ≥ 1`
the delay is `min(backoff_factor * 2^(a-1), 10.0)`, hence never exceeds
10 seconds — while `RetryConfig.calculate_delay` in `src/client.py`
computes the uncapped `backoff_factor * 2^(a-1)`. -/
theorem c4_backoff_formula_amended (cfg : RetryConfig) (a : Nat) (h : 1 ≤ a) :
    computeBackoff cfg a = min (cfg.backoffFactor * 2 ^ (a - 1)) 10
    ∧ computeBackoff cfg a ≤ 10
    ∧ calculateDelay cfg.backoffFactor (a - 1) =
        cfg.backoffFactor * 2 ^ (a - 1) := by
  obtain ⟨n, rfl⟩ : ∃ n, a = n + 1 := ⟨a - 1, by omega⟩
  have hcast : ((n + 1 : Nat) : Int) - 1 = (n : Int) := by omega
  have hmain : computeBackoff cfg (n + 1) = min (cfg.backoffFactor * 2 ^ n) 10 := by
    unfold computeBackoff
    rw [hcast, pow2Z_natCast]
  have hsub : n + 1 - 1 = n := rfl
  refine ⟨?_, ?_, ?_⟩
  · rw [hmain, hsub]
  · rw [hmain]; exact min_le_right _ _
  · rw [hsub]; rfl

/-- Witness for `c4_backoff_formula_amended` at the default config and
attempt 1: delay `min(0.5 * 2^0, 10) = 0.5`. -/
theorem c4_backoff_formula_amended_witness :
    computeBackoff defaultRetryConfig 1 =
        min (defaultRetryConfig.backoffFactor * 2 ^ (1 - 1)) 10
    ∧ computeBackoff defaultRetryConfig 1 ≤ 10
    ∧ calculateDelay defaultRetryConfig.backoffFactor (1 - 1) =
        defaultRetryConfig.backoffFactor * 2 ^ (1 - 1) :=
  c4_backoff_formula_amended defaultRetryConfig 1 (by decide)

/-- Claim C6 (confirmed): a call whose first response has an expected status
returns after exactly one network call with no sleeps, and the returned
value is `None` when the status is 204 or the body is empty, the parsed
JSON of the body when the body is non-empty and the `Content-Type` contains
`application/json`, and the raw body text otherwise. -/
theorem c6_success_deserialization (cfg : RetryConfig)
    (expected : Option (List Nat)) (r : Response) (fuel : Nat)
    (hf : 1 ≤ fuel) (hmem : r.status ∈ expectedStatuses expected) :
    ∃ v, runRequest cfg expected (fun _ => .response r) fuel =
        some ⟨1, [], .success v⟩
    ∧ ((r.status = 204 ∨ r.body = "") → v = .nullValue)
    ∧ (r.status ≠ 204 → r.body ≠ "" →
        containsSub "application/json" r.contentType = true → v = .jsonValue r.body)
    ∧ (r.status ≠ 204 → r.body ≠ "" →
        containsSub "application/json" r.contentType = false →
          v = .textValue r.body) := by
  obtain ⟨f, rfl⟩ : ∃ f, fuel = f + 1 := ⟨fuel - 1, by omega⟩
  refine ⟨if r.status = 204 then .nullValue else deserializeResponse r,
    ?_, ?_, ?_, ?_⟩
  · rw [runRequest]
    exact requestLoop_success_step cfg _ _ f 0 0 [] r rfl hmem
  · rintro (h204 | hbody)
    · simp [h204]
    · by_cases h204 : r.status = 204
      · simp [h204]
      · simp [h204, deserializeResponse, hbody]
  · intro h204 hbody hct
    simp [h204, deserializeResponse, hbody, hct]
  · intro h204 hbody hct
    simp [h204, deserializeResponse, hbody, hct]

/-- Witness for `c6_success_deserialization` at a 200 response with JSON
content type and a non-empty body. -/
theorem c6_success_deserialization_witness :
    ∃ v, runRequest defaultRetryConfig none (fun _ => .response okResponse) 1 =
        some ⟨1, [], .success v⟩
    ∧ ((okResponse.status = 204 ∨ okResponse.body = "") → v = .nullValue)
    ∧ (okResponse.status ≠ 204 → okResponse.body ≠ "" →
        containsSub "application/json" okResponse.contentType = true →
          v = .jsonValue okResponse.body)
    ∧ (okResponse.status ≠ 204 → okResponse.body ≠ "" →
        containsSub "application/json" okResponse.contentType = false →
          v = .textValue okResponse.body) :=
  c6_success_deserialization defaultRetryConfig none okResponse 1
    (by decide) (by decide)

/-- Claim C7 (confirmed): with an explicit `expected=[409]`, a 409 response
is treated as success — the call returns the deserialized body after one
network call instead of raising. -/
theorem c7_expected_status_override (cfg : RetryConfig) (r : Response)
    (fuel : Nat) (hf : 1 ≤ fuel) (h409 : r.status = 409) :
    runRequest cfg (some [409]) (fun _ => .response r) fuel =
      some ⟨1, [], .success (deserializeResponse r)⟩ := by
  obtain ⟨f, rfl⟩ : ∃ f, fuel = f + 1 := ⟨fuel - 1, by omega⟩
  have hexp : expectedStatuses (some [409]) = [409] := by decide
  rw [runRequest, hexp]
  rw [requestLoop_success_step cfg [409] (fun _ => .response r) f 0 0 [] r rfl
    (by simp [h409])]
  simp [h409]

/-- Witness for `c7_expected_status_override` at a concrete 409 conflict
response with a JSON body. -/
theorem c7_expected_status_override_witness :
    runRequest defaultRetryConfig (some [409])
      (fun _ => .response resp409Conflict) 1 =
      some ⟨1, [], .success (deserializeResponse resp409Conflict)⟩ :=
  c7_expected_status_override defaultRetryConfig resp409Conflict 1
    (by decide) (by decide)

theorem mem_updateOne_of_ne (base : List (String × String))
    (kv p : String × String) (hp : p ∈ base) (hne : p.1 ≠ kv.1) :
    p ∈ updateOne base kv := by
  unfold updateOne
  split
  · exact List.mem_map.mpr ⟨p, hp, by rw [if_neg hne]⟩
  · exact List.mem_append_left _ hp

theorem mem_updateOne_self (base : List (String × String))
    (kv : String × String) : kv ∈ updateOne base kv := by
  unfold updateOne
  split
  · next h =>
    obtain ⟨p, hp, hpk⟩ := List.any_eq_true.mp h
    have hk : p.1 = kv.1 := of_decide_eq_true hpk
    exact List.mem_map.mpr ⟨p, hp, by rw [if_pos hk, hk]⟩
  · exact List.mem_append_right _ (List.mem_singleton.mpr rfl)

theorem key_mem_updateOne (base : List (String × String))
    (kv : String × String) (dk dv : String) (hp : (dk, dv) ∈ base) :
    ∃ v', (dk, v') ∈ updateOne base kv := by
  by_cases hk : dk = kv.1
  · unfold updateOne
    rw [if_pos (List.any_eq_true.mpr ⟨(dk, dv), hp, decide_eq_true hk⟩)]
    exact ⟨kv.2, List.mem_map.mpr ⟨(dk, dv), hp, by rw [if_pos hk]⟩⟩
  · exact ⟨dv, mem_updateOne_of_ne base kv (dk, dv) hp hk⟩

theorem mem_dictUpdate_of_not_key (base upd : List (String × String))
    (p : String × String) (hp : p ∈ base)
    (hkeys : ∀ q ∈ upd, q.1 ≠ p.1) : p ∈ dictUpdate base upd := by
  induction upd generalizing base with
  | nil => exact hp
  | cons q rest ih =>
    show p ∈ dictUpdate (updateOne base q) rest
    refine ih (updateOne base q) ?_ ?_
    · exact mem_updateOne_of_ne base q p hp
        (fun h => hkeys q (List.mem_cons_self q rest) h.symm)
    · intro q' hq'
      exact hkeys q' (List.mem_cons_of_mem _ hq')

theorem mem_dictUpdate_of_mem_upd (base upd : List (String × String))
    (kv : String × String) (hdist : upd.Pairwise (fun p q => p.1 ≠ q.1))
    (hkv : kv ∈ upd) : kv ∈ dictUpdate base upd := by
  induction upd generalizing base with
  | nil => cases hkv
  | cons q rest ih =>
    rcases List.mem_cons.mp hkv with rfl | hmem
    · show kv ∈ dictUpdate (updateOne base kv) rest
      refine mem_dictUpdate_of_not_key (updateOne base kv) rest kv
        (mem_updateOne_self base kv) ?_
      intro p hp
      exact ((List.pairwise_cons.mp hdist).1 p hp).symm
    · exact ih (updateOne base q) (List.pairwise_cons.mp hdist).2 hmem

theorem key_mem_dictUpdate (base upd : List (String × String))
    (dk dv : String) (hp : (dk, dv) ∈ base) :
    ∃ v', (dk, v') ∈ dictUpdate base upd := by
  induction upd generalizing base dv with
  | nil => exact ⟨dv, hp⟩
  | cons q rest ih =>
    obtain ⟨v', hv'⟩ := key_mem_updateOne base q dk dv hp
    exact ih (updateOne base q) v' hv'

theorem defaultHeaders_no_additional (apiKey version : String) :
    defaultHeaders apiKey version none =
      [("authorization", "Bearer " ++ apiKey),
       ("user-agent", "stateset-python/" ++ version),
       ("accept", "application/json")] := rfl

theorem mergeHeaders_lower_auth (apiKey version cv : String) :
    mergeHeaders (defaultHeaders apiKey version none)
        (some [("authorization", cv)]) =
      [("authorization", cv),
       ("user-agent", "stateset-python/" ++ version),
       ("accept", "application/json")] := rfl

/-- Claim C8, counterexample: the stored default headers come from
`dict(self._client.headers)`, whose keys `httpx` has LOWERCASED, and
`_merge_headers` is a case-sensitive dict update over that base. A caller
header with the canonical key `Authorization` — equal to the stored
`authorization` key case-insensitively but not case-sensitively — does not
replace the default: the merged mapping still carries the stored
`authorization: Bearer key` entry alongside the caller's entry, so the
merged headers do NOT carry only the caller's value. -/
theorem c8_counterexample :
    ("authorization", "Bearer key") ∈
      mergeHeaders (defaultHeaders "key" "1.0.0" none)
        (some [("Authorization", "caller-value")])
    ∧ ("Authorization", "caller-value") ∈
      mergeHeaders (defaultHeaders "key" "1.0.0" none)
        (some [("Authorization", "caller-value")])
    ∧ lowerHeaderKey "Authorization" = lowerHeaderKey "authorization"
    ∧ "Authorization" ≠ "authorization"
    ∧ "Bearer key" ≠ "caller-value" := by
  refine ⟨?_, ?_, ?_, ?_, ?_⟩ <;> decide

/-- Claim C8 as amended: the stored default headers have httpx-lowercased
keys (`authorization`, `user-agent`, `accept`, and lowercased per-client
additional keys), and the merge is a case-sensitive dict update over that
base. Every caller-supplied pair is present in the merged headers; a
default pair whose key matches no caller key EXACTLY is preserved with its
value; every default key always remains present with some value; and a
caller header overrides the Authorization default precisely when the
caller writes the key in lowercase — the exact stored form — in which case
the merged mapping carries the caller's value and the default's pair is
gone. A caller key in any other casing (e.g. canonical `Authorization`)
does not replace the stored entry: see the counterexample. -/
theorem c8_header_merge_amended (defaults caller : List (String × String))
    (k v dk dv apiKey version cv : String)
    (hdist : caller.Pairwise (fun p q => p.1 ≠ q.1)) :
    ((k, v) ∈ caller → (k, v) ∈ mergeHeaders defaults (some caller))
    ∧ ((dk, dv) ∈ defaults → (∀ p ∈ caller, p.1 ≠ dk) →
        (dk, dv) ∈ mergeHeaders defaults (some caller))
    ∧ ((dk, dv) ∈ defaults →
        ∃ v', (dk, v') ∈ mergeHeaders defaults (some caller))
    ∧ ("authorization", "Bearer " ++ apiKey) ∈ defaultHeaders apiKey version none
    ∧ lookupHeader (mergeHeaders (defaultHeaders apiKey version none)
        (some [("authorization", cv)])) "authorization" = some cv
    ∧ (cv ≠ "Bearer " ++ apiKey →
        ("authorization", "Bearer " ++ apiKey) ∉
          mergeHeaders (defaultHeaders apiKey version none)
            (some [("authorization", cv)])) := by
  refine ⟨?_, ?_, ?_, ?_, rfl, ?_⟩
  · intro h
    exact mem_dictUpdate_of_mem_upd defaults caller (k, v) hdist h
  · intro h hkeys
    exact mem_dictUpdate_of_not_key defaults caller (dk, dv) h hkeys
  · intro h
    exact key_mem_dictUpdate defaults caller dk dv h
  · rw [defaultHeaders_no_additional]
    exact List.mem_cons_self _ _
  · intro hne hmem
    rw [mergeHeaders_lower_auth] at hmem
    simp only [List.mem_cons, List.not_mem_nil, or_false, Prod.mk.injEq] at hmem
    rcases hmem with ⟨_, hval⟩ | ⟨hkey, _⟩ | ⟨hkey, _⟩
    · exact hne hval.symm
    · exact absurd hkey (by decide)
    · exact absurd hkey (by decide)

/-- Witness for `c8_header_merge_amended`: caller overrides the stored
`accept` key exactly, supplies a new `X-Test` header, and the
Authorization-specific conjuncts are instantiated at `apiKey = key`,
`cv = caller-value`. -/
theorem c8_header_merge_amended_witness :
    (("accept", "text/html") ∈ [("accept", "text/html"), ("X-Test", "value")] →
      ("accept", "text/html") ∈ mergeHeaders (defaultHeaders "key" "1.0.0" none)
        (some [("accept", "text/html"), ("X-Test", "value")]))
    ∧ (("authorization", "Bearer key") ∈ defaultHeaders "key" "1.0.0" none →
        (∀ p ∈ [("accept", "text/html"), ("X-Test", "value")],
          p.1 ≠ "authorization") →
        ("authorization", "Bearer key") ∈
          mergeHeaders (defaultHeaders "key" "1.0.0" none)
            (some [("accept", "text/html"), ("X-Test", "value")]))
    ∧ (("authorization", "Bearer key") ∈ defaultHeaders "key" "1.0.0" none →
        ∃ v', ("authorization", v') ∈
          mergeHeaders (defaultHeaders "key" "1.0.0" none)
            (some [("accept", "text/html"), ("X-Test", "value")]))
    ∧ ("authorization", "Bearer " ++ "key") ∈ defaultHeaders "key" "1.0.0" none
    ∧ lookupHeader (mergeHeaders (defaultHeaders "key" "1.0.0" none)
        (some [("authorization", "caller-value")])) "authorization" =
          some "caller-value"
    ∧ ("caller-value" ≠ "Bearer " ++ "key" →
        ("authorization", "Bearer " ++ "key") ∉
          mergeHeaders (defaultHeaders "key" "1.0.0" none)
            (some [("authorization", "caller-value")])) :=
  c8_header_merge_amended (defaultHeaders "key" "1.0.0" none)
    [("accept", "text/html"), ("X-Test", "value")]
    "accept" "text/html" "authorization" "Bearer key" "key" "1.0.0"
    "caller-value" (by decide)

/-- Claim C10 (confirmed): an empty `expected` list is falsy, so it is
treated exactly as no `expected` argument — the success set falls back to
the 2xx range, the whole pipeline behaves identically, and in particular a
200 response still succeeds, so an empty list cannot make every status an
error. -/
theorem c10_empty_expected_defaults :
    expectedStatuses (some []) = expectedStatuses none
    ∧ (∀ (cfg : RetryConfig) (responder : Nat → CallResult) (fuel : Nat),
        runRequest cfg (some []) responder fuel =
          runRequest cfg none responder fuel)
    ∧ runRequest defaultRetryConfig (some []) (fun _ => .response okResponse) 1 =
        some ⟨1, [], .success (.jsonValue "ok-body")⟩ := by
  exact ⟨rfl, fun _ _ _ => rfl, rfl⟩

end StatesetSpec
